import Mathlib

/-!
Verification of the amortization core of the mortgage-master-toolkit
calculators.

The source is TypeScript; every function verified here is pure arithmetic
over JavaScript numbers.  We model that arithmetic exactly over `ℚ`
(the programs use only `+`, `-`, `*`, `/`, `Math.max`, `Math.pow` with an
integer exponent, and comparisons).  JavaScript's division by zero and
`Number.NaN` have no counterpart in `ℚ`; the one place the code
deliberately produces `NaN` — the non-amortizing sentinel
`{ months: 3600, totalInterest: NaN }` — is modelled with
`Option ℚ`, where `none` stands for `NaN`.

Month counters, loop fuel and term lengths are natural numbers / integers,
matching the integer values the UI feeds the core.  The `while` loops of
the payoff simulators are bounded by the source's own hard cap of 3600
iterations (`months < 3600` in the loop condition), so they embed as
structural recursion on a fuel argument that starts at 3600: `fuel`
counts the remaining admissible iterations, keeping the invariant
`months + fuel = 3600`, under which `months < 3600 ↔ fuel > 0`.
-/

/-- Result record of both amortization simulations:
`{ months, totalInterest }`.  `totalInterest = none` models the
JavaScript `Number.NaN` sentinel. -/
structure AmortResult where
  months : ℕ
  totalInterest : Option ℚ
deriving DecidableEq, Repr

/-- The lump-sum cadence enum `"once" | "yearly" | "quarterly"`. -/
inductive LumpFreq where
  | once
  | yearly
  | quarterly
deriving DecidableEq, Repr

namespace Purchase

/-!  Embeddings of `amortizeBaseline` and `amortizeWithExtras` from
`src/components/mortgage/PurchaseCalculator.tsx`. -/

/-- The `while (bal > 0 && months < 3600)` loop of `amortizeBaseline`:
each iteration accrues `interest = bal * r`, adds it to `interestPaid`,
reduces the balance by `payment - interest` clamped at zero
(`bal = Math.max(0, bal - principalPay)`), and increments `months`.
`fuel` is the number of iterations still allowed by `months < 3600`. -/
def baselineLoop (r payment : ℚ) : ℕ → ℚ → ℕ → ℚ → ℕ × ℚ
  | 0, _, months, interestPaid => (months, interestPaid)
  | fuel + 1, bal, months, interestPaid =>
    if 0 < bal then
      let interest := bal * r
      let principalPay := payment - interest
      baselineLoop r payment fuel (max 0 (bal - principalPay)) (months + 1)
        (interestPaid + interest)
    else (months, interestPaid)

/-- `amortizeBaseline(principal, r, payment)`: guard
`payment <= bal * r` returns the sentinel `{ months: 3600,
totalInterest: NaN }`; otherwise run the month loop from
`bal = principal, months = 0, interestPaid = 0`. -/
def amortizeBaseline (principal r payment : ℚ) : AmortResult :=
  if payment ≤ principal * r then
    ⟨3600, none⟩
  else
    let res := baselineLoop r payment 3600 principal 0 0
    ⟨res.1, some res.2⟩

/-- The lump-sum schedule test of `amortizeWithExtras`: the lump sum is
added when `lumpSum > 0` and the cadence matches the current
(zero-based) month index:
`once` at `months === 0`, `yearly` when `(months + 1) % 12 === 1`,
`quarterly` when `(months + 1) % 3 === 1`. -/
def lumpDue (lumpFreq : LumpFreq) (lumpSum : ℚ) (months : ℕ) : Bool :=
  decide (0 < lumpSum) &&
    ((lumpFreq == .once && months == 0) ||
     (lumpFreq == .yearly && (months + 1) % 12 == 1) ||
     (lumpFreq == .quarterly && (months + 1) % 3 == 1))

/-- The `while (bal > 0 && months < 3600)` loop of `amortizeWithExtras`:
like `baselineLoop`, but the principal portion additionally receives
`extraMonthly * freqFactor` every month and `lumpSum` in the months
selected by `lumpDue`. -/
def extrasLoop (r payment extraMonthly freqFactor lumpSum : ℚ)
    (lumpFreq : LumpFreq) : ℕ → ℚ → ℕ → ℚ → ℕ × ℚ
  | 0, _, months, interestPaid => (months, interestPaid)
  | fuel + 1, bal, months, interestPaid =>
    if 0 < bal then
      let interest := bal * r
      let principalPay := payment - interest + extraMonthly * freqFactor +
        (if lumpDue lumpFreq lumpSum months then lumpSum else 0)
      extrasLoop r payment extraMonthly freqFactor lumpSum lumpFreq fuel
        (max 0 (bal - principalPay)) (months + 1) (interestPaid + interest)
    else (months, interestPaid)

/-- `amortizeWithExtras(principal, r, payment, extraMonthly, freqFactor,
lumpSum, lumpFreq)`: same guard and sentinel as `amortizeBaseline`, then
the month loop with extras. -/
def amortizeWithExtras (principal r payment extraMonthly freqFactor lumpSum : ℚ)
    (lumpFreq : LumpFreq) : AmortResult :=
  if payment ≤ principal * r then
    ⟨3600, none⟩
  else
    let res := extrasLoop r payment extraMonthly freqFactor lumpSum lumpFreq
      3600 principal 0 0
    ⟨res.1, some res.2⟩

/-- `const baseLoan = Math.max(0, homeValue - downPayment)` from the
`PurchaseCalculator` component wiring. -/
def baseLoan (homeValue downPayment : ℚ) : ℚ :=
  max 0 (homeValue - downPayment)

/-- `const monthlyPI = r ? baseLoan * (r * (1+r)^n) / ((1+r)^n - 1)
: (n > 0 ? baseLoan / n : 0)` from the `PurchaseCalculator` wiring
(`r` truthy means `r ≠ 0`). -/
def monthlyPI (loan r : ℚ) (n : ℕ) : ℚ :=
  if r ≠ 0 then loan * (r * (1 + r) ^ n) / ((1 + r) ^ n - 1)
  else if 0 < n then loan / n
  else 0

end Purchase

namespace VA

/-!  Embeddings of `amortizeBaseline` and `amortizeWithExtras` from
`src/components/mortgage/VACalculator.tsx`.  The VA calculator carries
its own copy of the two simulation functions; they are embedded
separately, faithful to that file. -/

/-- The `while (bal > 0 && months < 3600)` loop of the VA calculator's
`amortizeBaseline` (same body as the purchase calculator's copy). -/
def baselineLoop (r payment : ℚ) : ℕ → ℚ → ℕ → ℚ → ℕ × ℚ
  | 0, _, months, interestPaid => (months, interestPaid)
  | fuel + 1, bal, months, interestPaid =>
    if 0 < bal then
      let interest := bal * r
      let principalPay := payment - interest
      baselineLoop r payment fuel (max 0 (bal - principalPay)) (months + 1)
        (interestPaid + interest)
    else (months, interestPaid)

/-- The VA calculator's `amortizeBaseline(principal, r, payment)`. -/
def amortizeBaseline (principal r payment : ℚ) : AmortResult :=
  if payment ≤ principal * r then
    ⟨3600, none⟩
  else
    let res := baselineLoop r payment 3600 principal 0 0
    ⟨res.1, some res.2⟩

/-- The VA calculator's lump-sum cadence test (same condition as the
purchase calculator's copy). -/
def lumpDue (lumpFreq : LumpFreq) (lumpSum : ℚ) (months : ℕ) : Bool :=
  decide (0 < lumpSum) &&
    ((lumpFreq == .once && months == 0) ||
     (lumpFreq == .yearly && (months + 1) % 12 == 1) ||
     (lumpFreq == .quarterly && (months + 1) % 3 == 1))

/-- The `while (bal > 0 && months < 3600)` loop of the VA calculator's
`amortizeWithExtras`. -/
def extrasLoop (r payment extraMonthly freqFactor lumpSum : ℚ)
    (lumpFreq : LumpFreq) : ℕ → ℚ → ℕ → ℚ → ℕ × ℚ
  | 0, _, months, interestPaid => (months, interestPaid)
  | fuel + 1, bal, months, interestPaid =>
    if 0 < bal then
      let interest := bal * r
      let principalPay := payment - interest + extraMonthly * freqFactor +
        (if lumpDue lumpFreq lumpSum months then lumpSum else 0)
      extrasLoop r payment extraMonthly freqFactor lumpSum lumpFreq fuel
        (max 0 (bal - principalPay)) (months + 1) (interestPaid + interest)
    else (months, interestPaid)

/-- The VA calculator's `amortizeWithExtras(principal, r, payment,
extraMonthly, freqFactor, lumpSum, lumpFreq)`. -/
def amortizeWithExtras (principal r payment extraMonthly freqFactor lumpSum : ℚ)
    (lumpFreq : LumpFreq) : AmortResult :=
  if payment ≤ principal * r then
    ⟨3600, none⟩
  else
    let res := extrasLoop r payment extraMonthly freqFactor lumpSum lumpFreq
      3600 principal 0 0
    ⟨res.1, some res.2⟩

end VA

namespace VARefi

/-!  Embeddings of the closed-form helpers of the VA refinance
calculator (the unnamed source file defining `VARefinanceCalculator`):
`monthlyPayment` and `balanceAfterMonths`.  Term lengths and elapsed
months are integers (the UI supplies whole months); `Math.pow(1 + r, k)`
with an integer exponent is `zpow`. -/

/-- `monthlyPayment(principal, monthlyRate, nMonths)`:
returns 0 when `principal <= 0 || nMonths <= 0`; straight-line
`principal / nMonths` at zero rate; otherwise the annuity formula
`principal * (r * (1+r)^n) / ((1+r)^n - 1)`. -/
def monthlyPayment (principal monthlyRate : ℚ) (nMonths : ℤ) : ℚ :=
  if principal ≤ 0 ∨ nMonths ≤ 0 then 0
  else if monthlyRate = 0 then principal / (nMonths : ℚ)
  else
    principal * (monthlyRate * (1 + monthlyRate) ^ nMonths) /
      ((1 + monthlyRate) ^ nMonths - 1)

/-- `balanceAfterMonths(principal, monthlyRate, nMonths, k)`:
returns 0 when `principal <= 0 || nMonths <= 0`; at zero rate
`max(0, principal - pmt * k)`; otherwise the closed-form remaining
balance `max(0, principal*(1+r)^k - pmt*(((1+r)^k - 1)/r))`, where
`pmt = monthlyPayment(principal, monthlyRate, nMonths)`. -/
def balanceAfterMonths (principal monthlyRate : ℚ) (nMonths k : ℤ) : ℚ :=
  if principal ≤ 0 ∨ nMonths ≤ 0 then 0
  else
    let pmt := monthlyPayment principal monthlyRate nMonths
    if monthlyRate = 0 then max 0 (principal - pmt * (k : ℚ))
    else
      max 0 (principal * (1 + monthlyRate) ^ k -
        pmt * (((1 + monthlyRate) ^ k - 1) / monthlyRate))

end VARefi

namespace Afford

/-!  Embedding of the `monthlyPayment` helper of
`src/components/mortgage/AffordabilityCalculator.tsx` (textually the
same function as the VA refinance calculator's copy). -/

/-- The affordability calculator's `monthlyPayment(principal,
monthlyRate, nMonths)`. -/
def monthlyPayment (principal monthlyRate : ℚ) (nMonths : ℤ) : ℚ :=
  if principal ≤ 0 ∨ nMonths ≤ 0 then 0
  else if monthlyRate = 0 then principal / (nMonths : ℚ)
  else
    principal * (monthlyRate * (1 + monthlyRate) ^ nMonths) /
      ((1 + monthlyRate) ^ nMonths - 1)

end Afford

namespace Refi

/-!  Embeddings of the helpers of
`src/components/mortgage/RefinanceCalculator.tsx`: `pmt` and
`remainingBalance`.  These take the rate as an annual percentage and
convert it with `r = annualRatePct / 100 / 12`. -/

/-- `pmt(principal, annualRatePct, months)`: 0 when `months <= 0`;
straight-line `principal / months` at zero rate; otherwise
`principal * r * f / (f - 1)` with `f = (1+r)^months`. -/
def pmt (principal annualRatePct : ℚ) (months : ℤ) : ℚ :=
  let r := annualRatePct / 100 / 12
  if months ≤ 0 then 0
  else if r = 0 then principal / (months : ℚ)
  else
    let f := (1 + r) ^ months
    principal * r * f / (f - 1)

/-- `remainingBalance(originalPrincipal, annualRatePct, totalMonths,
monthsPaid)`: 0 when `totalMonths <= 0`; the untouched principal when
`monthsPaid <= 0`; 0 when `monthsPaid >= totalMonths`; straight-line
clamp at zero rate; otherwise the closed-form balance
`max(0, P*(1+r)^k - (m/r)*((1+r)^k - 1))` with
`m = pmt(P, annualRatePct, totalMonths)`. -/
def remainingBalance (originalPrincipal annualRatePct : ℚ)
    (totalMonths monthsPaid : ℤ) : ℚ :=
  let r := annualRatePct / 100 / 12
  if totalMonths ≤ 0 then 0
  else if monthsPaid ≤ 0 then originalPrincipal
  else if totalMonths ≤ monthsPaid then 0
  else if r = 0 then
    let principalPaid := originalPrincipal / (totalMonths : ℚ) * (monthsPaid : ℚ)
    max 0 (originalPrincipal - principalPaid)
  else
    let m := pmt originalPrincipal annualRatePct totalMonths
    max 0 (originalPrincipal * (1 + r) ^ monthsPaid -
      m / r * ((1 + r) ^ monthsPaid - 1))

end Refi

namespace Purchase

/-- The baseline month loop runs at most `fuel` more iterations: the
returned month count is bounded by `months + fuel`. -/
theorem baselineLoop_months_le (r payment : ℚ) :
    ∀ (fuel : ℕ) (bal : ℚ) (months : ℕ) (ip : ℚ),
      (baselineLoop r payment fuel bal months ip).1 ≤ months + fuel := by
  intro fuel
  induction fuel with
  | zero =>
    intro bal months ip
    simp [baselineLoop]
  | succ n ih =>
    intro bal months ip
    simp only [baselineLoop]
    split
    · exact le_trans (ih _ _ _) (by omega)
    · simp

/-- The extras month loop runs at most `fuel` more iterations. -/
theorem extrasLoop_months_le (r payment extraMonthly freqFactor lumpSum : ℚ)
    (lumpFreq : LumpFreq) :
    ∀ (fuel : ℕ) (bal : ℚ) (months : ℕ) (ip : ℚ),
      (extrasLoop r payment extraMonthly freqFactor lumpSum lumpFreq fuel
        bal months ip).1 ≤ months + fuel := by
  intro fuel
  induction fuel with
  | zero =>
    intro bal months ip
    simp [extrasLoop]
  | succ n ih =>
    intro bal months ip
    simp only [extrasLoop]
    split
    · exact le_trans (ih _ _ _) (by omega)
    · simp

/-- With a nonnegative balance and rate, the baseline loop only moves
forward: the resulting month count is at least the starting one and the
resulting interest total at least the starting accumulator. -/
theorem baselineLoop_grows (r payment : ℚ) (hr : 0 ≤ r) :
    ∀ (fuel : ℕ) (bal : ℚ) (months : ℕ) (ip : ℚ), 0 ≤ bal →
      months ≤ (baselineLoop r payment fuel bal months ip).1 ∧
        ip ≤ (baselineLoop r payment fuel bal months ip).2 := by
  intro fuel
  induction fuel with
  | zero =>
    intro bal months ip _
    simp [baselineLoop]
  | succ n ih =>
    intro bal months ip hb
    simp only [baselineLoop]
    split
    · have h := ih (max 0 (bal - (payment - bal * r))) (months + 1)
        (ip + bal * r) (le_max_left 0 _)
      exact ⟨le_trans (Nat.le_succ _) h.1,
        le_trans (le_add_of_nonneg_right (mul_nonneg hb hr)) h.2⟩
    · exact ⟨le_rfl, le_rfl⟩

/-- Pointwise domination: starting the extras loop from a balance and
interest accumulator no larger than the baseline's, with a nonnegative
rate, extra payment and lump sum, it pays off no later and accrues no
more interest than the baseline loop. -/
theorem extrasLoop_le_baselineLoop (r payment extraMonthly freqFactor lumpSum : ℚ)
    (lumpFreq : LumpFreq) (hr : 0 ≤ r) (hx : 0 ≤ extraMonthly * freqFactor)
    (hl : 0 ≤ lumpSum) :
    ∀ (fuel : ℕ) (balE balB : ℚ) (months : ℕ) (ipE ipB : ℚ),
      0 ≤ balE → balE ≤ balB → ipE ≤ ipB →
      (extrasLoop r payment extraMonthly freqFactor lumpSum lumpFreq fuel
          balE months ipE).1 ≤ (baselineLoop r payment fuel balB months ipB).1 ∧
        (extrasLoop r payment extraMonthly freqFactor lumpSum lumpFreq fuel
          balE months ipE).2 ≤ (baselineLoop r payment fuel balB months ipB).2 := by
  intro fuel
  induction fuel with
  | zero =>
    intro balE balB months ipE ipB _ _ hip
    simpa [extrasLoop, baselineLoop] using hip
  | succ n ih =>
    intro balE balB months ipE ipB hE0 hEB hip
    have hrr : balE * r ≤ balB * r := mul_le_mul_of_nonneg_right hEB hr
    simp only [extrasLoop, baselineLoop]
    by_cases hbE : 0 < balE
    · have hbB : 0 < balB := lt_of_lt_of_le hbE hEB
      rw [if_pos hbE, if_pos hbB]
      have hlump : 0 ≤ (if lumpDue lumpFreq lumpSum months then lumpSum else 0) := by
        split
        · exact hl
        · exact le_rfl
      exact ih _ _ _ _ _ (le_max_left 0 _)
        (max_le_max le_rfl (by linarith)) (by linarith)
    · rw [if_neg hbE]
      by_cases hbB : 0 < balB
      · rw [if_pos hbB]
        have h := baselineLoop_grows r payment hr n
          (max 0 (balB - (payment - balB * r))) (months + 1) (ipB + balB * r)
          (le_max_left 0 _)
        refine ⟨le_trans (Nat.le_succ _) h.1, le_trans ?_ h.2⟩
        have : 0 ≤ balB * r := mul_nonneg hbB.le hr
        linarith
      · rw [if_neg hbB]
        exact ⟨le_rfl, hip⟩

end Purchase

/-- C1: for every principal ≥ 0, monthly rate r ≥ 0, and base payment
with `payment ≤ principal * r`, both `amortizeBaseline` and
`amortizeWithExtras` short-circuit on the guard before entering the
month loop and return the non-amortizing sentinel
`{ months: 3600, totalInterest: NaN }` (here `totalInterest = none`). -/
theorem guard_returns_sentinel
    (principal r payment extraMonthly freqFactor lumpSum : ℚ)
    (lumpFreq : LumpFreq) (_hp : 0 ≤ principal) (_hr : 0 ≤ r)
    (h : payment ≤ principal * r) :
    Purchase.amortizeBaseline principal r payment = ⟨3600, none⟩ ∧
      Purchase.amortizeWithExtras principal r payment extraMonthly freqFactor
        lumpSum lumpFreq = ⟨3600, none⟩ := by
  constructor
  · simp [Purchase.amortizeBaseline, h]
  · simp [Purchase.amortizeWithExtras, h]

/-- Witness for C1 at principal = 100, r = 1, payment = 50. -/
theorem guard_returns_sentinel_witness :
    (0 : ℚ) ≤ 100 ∧ (0 : ℚ) ≤ 1 ∧ (50 : ℚ) ≤ 100 * 1 ∧
      (Purchase.amortizeBaseline 100 1 50 = ⟨3600, none⟩ ∧
        Purchase.amortizeWithExtras 100 1 50 10 1 5 .once = ⟨3600, none⟩) :=
  ⟨by norm_num, by norm_num, by norm_num,
    guard_returns_sentinel 100 1 50 10 1 5 .once (by norm_num) (by norm_num)
      (by norm_num)⟩

/-- C2: for every input, both simulations terminate (they are bounded
recursions on the source's own 3600-iteration cap) and the `months`
field of the result is at most 3600. -/
theorem months_at_most_cap
    (principal r payment extraMonthly freqFactor lumpSum : ℚ)
    (lumpFreq : LumpFreq) :
    (Purchase.amortizeBaseline principal r payment).months ≤ 3600 ∧
      (Purchase.amortizeWithExtras principal r payment extraMonthly freqFactor
        lumpSum lumpFreq).months ≤ 3600 := by
  constructor
  · unfold Purchase.amortizeBaseline
    split
    · exact le_rfl
    · simpa using Purchase.baselineLoop_months_le r payment 3600 principal 0 0
  · unfold Purchase.amortizeWithExtras
    split
    · exact le_rfl
    · simpa using Purchase.extrasLoop_months_le r payment extraMonthly
        freqFactor lumpSum lumpFreq 3600 principal 0 0

/-- C3: for principal > 0, r ≥ 0, payment covering the first month's
interest, a positive extra monthly amount, frequency factor ≥ 1 and no
lump sum, the with-extras simulation pays off no later and accrues no
more total interest than the baseline simulation. -/
theorem extras_never_worse (principal r payment extraMonthly freqFactor : ℚ)
    (lumpFreq : LumpFreq) (hp : 0 < principal) (hr : 0 ≤ r)
    (hpay : principal * r < payment) (he : 0 < extraMonthly)
    (hf : 1 ≤ freqFactor) :
    (Purchase.amortizeWithExtras principal r payment extraMonthly freqFactor 0
        lumpFreq).months ≤ (Purchase.amortizeBaseline principal r payment).months ∧
      ∃ tE tB : ℚ,
        (Purchase.amortizeWithExtras principal r payment extraMonthly freqFactor 0
          lumpFreq).totalInterest = some tE ∧
        (Purchase.amortizeBaseline principal r payment).totalInterest = some tB ∧
        tE ≤ tB := by
  have hx : 0 ≤ extraMonthly * freqFactor :=
    mul_nonneg he.le (le_trans zero_le_one hf)
  have hguard : ¬ payment ≤ principal * r := not_le.mpr hpay
  have h := Purchase.extrasLoop_le_baselineLoop r payment extraMonthly freqFactor
    0 lumpFreq hr hx le_rfl 3600 principal principal 0 0 0 hp.le le_rfl le_rfl
  unfold Purchase.amortizeWithExtras Purchase.amortizeBaseline
  rw [if_neg hguard, if_neg hguard]
  exact ⟨h.1, _, _, rfl, rfl, h.2⟩

/-- Witness for C3 at principal = 1000, r = 0, payment = 100,
extraMonthly = 50, freqFactor = 1, cadence `once`. -/
theorem extras_never_worse_witness :
    (0 : ℚ) < 1000 ∧ (0 : ℚ) ≤ 0 ∧ (1000 : ℚ) * 0 < 100 ∧ (0 : ℚ) < 50 ∧
      (1 : ℚ) ≤ 1 ∧
      ((Purchase.amortizeWithExtras 1000 0 100 50 1 0 .once).months ≤
          (Purchase.amortizeBaseline 1000 0 100).months ∧
        ∃ tE tB : ℚ,
          (Purchase.amortizeWithExtras 1000 0 100 50 1 0 .once).totalInterest =
            some tE ∧
          (Purchase.amortizeBaseline 1000 0 100).totalInterest = some tB ∧
          tE ≤ tB) :=
  ⟨by norm_num, by norm_num, by norm_num, by norm_num, by norm_num,
    extras_never_worse 1000 0 100 50 1 .once (by norm_num) (by norm_num)
      (by norm_num) (by norm_num) (by norm_num)⟩

/-- C8: with a positive lump sum, the cadence test of
`amortizeWithExtras` fires exactly at the zero-based month indices the
spec names — `once`: only index 0; `yearly`: exactly the indices
divisible by 12; `quarterly`: exactly the indices divisible by 3 — and
in a 24-month window the yearly cadence fires exactly at 0 and 12. -/
theorem lump_cadence_exact (lumpSum : ℚ) (hl : 0 < lumpSum) (k : ℕ) :
    (Purchase.lumpDue .once lumpSum k = true ↔ k = 0) ∧
      (Purchase.lumpDue .yearly lumpSum k = true ↔ k % 12 = 0) ∧
      (Purchase.lumpDue .quarterly lumpSum k = true ↔ k % 3 = 0) ∧
      (k < 24 → (Purchase.lumpDue .yearly lumpSum k = true ↔ k = 0 ∨ k = 12)) := by
  refine ⟨?_, ?_, ?_, ?_⟩
  · simp [Purchase.lumpDue, hl]
  · simp [Purchase.lumpDue, hl]
    omega
  · simp [Purchase.lumpDue, hl]
    omega
  · intro hk
    simp [Purchase.lumpDue, hl]
    omega

/-- Witness for C8 at lumpSum = 100, k = 12. -/
theorem lump_cadence_exact_witness :
    (0 : ℚ) < 100 ∧
      ((Purchase.lumpDue .once 100 12 = true ↔ (12 : ℕ) = 0) ∧
        (Purchase.lumpDue .yearly 100 12 = true ↔ (12 : ℕ) % 12 = 0) ∧
        (Purchase.lumpDue .quarterly 100 12 = true ↔ (12 : ℕ) % 3 = 0) ∧
        ((12 : ℕ) < 24 →
          (Purchase.lumpDue .yearly 100 12 = true ↔ (12 : ℕ) = 0 ∨ (12 : ℕ) = 12))) :=
  ⟨by norm_num, lump_cadence_exact 100 (by norm_num) 12⟩

/-- For a zero balance the baseline loop exits immediately, returning
the incoming counters unchanged. -/
theorem baselineLoop_zero_bal (r payment : ℚ) (fuel months : ℕ) (ip : ℚ) :
    Purchase.baselineLoop r payment fuel 0 months ip = (months, ip) := by
  cases fuel <;> simp [Purchase.baselineLoop]

/-- C9: at the public interface, a zero loan with a zero payment
(the wiring produced when the down payment equals the home value, so
`monthlyPI = 0`) trips the guard `payment <= principal * r` and
`amortizeBaseline` returns the non-amortizing sentinel
`{ months: 3600, totalInterest: NaN }` rather than
`{ months: 0, totalInterest: 0 }`; a zero loan with a positive payment
instead returns `{ months: 0, totalInterest: 0 }`. -/
theorem zero_loan_zero_payment_sentinel (homeValue r payment : ℚ) (n : ℕ)
    (hpay : 0 < payment) :
    Purchase.monthlyPI (Purchase.baseLoan homeValue homeValue) r n = 0 ∧
      Purchase.amortizeBaseline 0 r 0 = ⟨3600, none⟩ ∧
      Purchase.amortizeBaseline 0 r payment = ⟨0, some 0⟩ := by
  refine ⟨?_, ?_, ?_⟩
  · have hb : Purchase.baseLoan homeValue homeValue = 0 := by
      simp [Purchase.baseLoan]
    rw [hb]
    unfold Purchase.monthlyPI
    split
    · simp
    · split <;> simp
  · simp [Purchase.amortizeBaseline]
  · have hguard : ¬ payment ≤ (0 : ℚ) * r := by
      rw [zero_mul]
      exact not_le.mpr hpay
    unfold Purchase.amortizeBaseline
    rw [if_neg hguard, baselineLoop_zero_bal]

/-- Witness for C9 at homeValue = 200000, r = 1/240, n = 360,
payment = 1. -/
theorem zero_loan_zero_payment_sentinel_witness :
    (0 : ℚ) < 1 ∧
      (Purchase.monthlyPI (Purchase.baseLoan 200000 200000) (1 / 240) 360 = 0 ∧
        Purchase.amortizeBaseline 0 (1 / 240) 0 = ⟨3600, none⟩ ∧
        Purchase.amortizeBaseline 0 (1 / 240) 1 = ⟨0, some 0⟩) :=
  ⟨by norm_num, zero_loan_zero_payment_sentinel 200000 (1 / 240) 1 360 (by norm_num)⟩

/-- C4: projecting the balance after all n payments with the payment
produced by `monthlyPayment` yields exactly zero (in exact rational
arithmetic): `balanceAfterMonths(principal, r, n, n) = 0` for
principal > 0, r > 0, n > 0. -/
theorem payment_amortizes_to_zero (principal monthlyRate : ℚ) (n : ℤ)
    (hp : 0 < principal) (hr : 0 < monthlyRate) (hn : 0 < n) :
    VARefi.balanceAfterMonths principal monthlyRate n n = 0 := by
  have hg : ¬(principal ≤ 0 ∨ n ≤ 0) := by
    push_neg
    exact ⟨hp, hn⟩
  have hr0 : monthlyRate ≠ 0 := ne_of_gt hr
  have hX : 1 < (1 + monthlyRate) ^ n := by
    rw [show n = ((n.toNat : ℤ)) from (Int.toNat_of_nonneg hn.le).symm, zpow_natCast]
    exact one_lt_pow₀ (by linarith) (by omega)
  have hX1 : (1 + monthlyRate) ^ n - 1 ≠ 0 := sub_ne_zero.mpr (ne_of_gt hX)
  simp only [VARefi.balanceAfterMonths, VARefi.monthlyPayment, if_neg hg,
    if_neg hr0]
  have hz : principal * (1 + monthlyRate) ^ n -
      principal * (monthlyRate * (1 + monthlyRate) ^ n) /
        ((1 + monthlyRate) ^ n - 1) *
        (((1 + monthlyRate) ^ n - 1) / monthlyRate) = 0 := by
    field_simp
    ring
  rw [hz]
  simp

/-- Witness for C4 at principal = 1000, r = 1/100, n = 2. -/
theorem payment_amortizes_to_zero_witness :
    (0 : ℚ) < 1000 ∧ (0 : ℚ) < 1 / 100 ∧ (0 : ℤ) < 2 ∧
      VARefi.balanceAfterMonths 1000 (1 / 100) 2 2 = 0 :=
  ⟨by norm_num, by norm_num, by norm_num,
    payment_amortizes_to_zero 1000 (1 / 100) 2 (by norm_num) (by norm_num)
      (by norm_num)⟩

/-- C5: at zero interest rate the payment calculator returns exactly
`principal / termMonths` (both the VA refinance and the affordability
copies), and in particular `monthlyPayment(100000, 0, 120) = 2500/3 =
833.33…`. -/
theorem zero_rate_straight_line (principal : ℚ) (n : ℤ) (hp : 0 < principal)
    (hn : 0 < n) :
    VARefi.monthlyPayment principal 0 n = principal / (n : ℚ) ∧
      Afford.monthlyPayment principal 0 n = principal / (n : ℚ) ∧
      VARefi.monthlyPayment 100000 0 120 = 2500 / 3 := by
  have hg : ¬(principal ≤ 0 ∨ n ≤ 0) := by
    push_neg
    exact ⟨hp, hn⟩
  refine ⟨?_, ?_, ?_⟩
  · simp [VARefi.monthlyPayment, hg]
  · simp [Afford.monthlyPayment, hg]
  · norm_num [VARefi.monthlyPayment]

/-- Witness for C5 at principal = 100000, n = 120. -/
theorem zero_rate_straight_line_witness :
    (0 : ℚ) < 100000 ∧ (0 : ℤ) < 120 ∧
      (VARefi.monthlyPayment 100000 0 120 = 100000 / ((120 : ℤ) : ℚ) ∧
        Afford.monthlyPayment 100000 0 120 = 100000 / ((120 : ℤ) : ℚ) ∧
        VARefi.monthlyPayment 100000 0 120 = 2500 / 3) :=
  ⟨by norm_num, by norm_num,
    zero_rate_straight_line 100000 120 (by norm_num) (by norm_num)⟩

/-- C6 counterexample: the refinance calculator's `pmt` does not return
0 for a nonpositive principal — at principal = −1200, rate 0 %, 12
months it returns −100. -/
theorem pmt_negative_principal_counterexample :
    ((-1200 : ℚ) ≤ 0 ∨ (12 : ℤ) ≤ 0) ∧ Refi.pmt (-1200) 0 12 = -100 ∧
      Refi.pmt (-1200) 0 12 ≠ 0 := by
  refine ⟨Or.inl (by norm_num), ?_, ?_⟩ <;> norm_num [Refi.pmt]

/-- C6 amended: `monthlyPayment` (VA refinance and affordability copies)
returns 0 whenever principal ≤ 0 or the term is ≤ 0; the refinance
calculator's `pmt` returns 0 whenever the term is ≤ 0 and whenever the
principal is exactly 0, but not for negative principals. -/
theorem payment_zero_guards (principal rate : ℚ) (n : ℤ) :
    (principal ≤ 0 ∨ n ≤ 0 → VARefi.monthlyPayment principal rate n = 0) ∧
      (principal ≤ 0 ∨ n ≤ 0 → Afford.monthlyPayment principal rate n = 0) ∧
      (n ≤ 0 → Refi.pmt principal rate n = 0) ∧
      Refi.pmt 0 rate n = 0 := by
  refine ⟨?_, ?_, ?_, ?_⟩
  · intro h
    simp [VARefi.monthlyPayment, h]
  · intro h
    simp [Afford.monthlyPayment, h]
  · intro h
    simp [Refi.pmt, h]
  · simp only [Refi.pmt]
    split
    · rfl
    · split <;> simp

/-- Witness for C6's amended claim at concrete inputs. -/
theorem payment_zero_guards_witness :
    ((-5 : ℚ) ≤ 0 ∨ (12 : ℤ) ≤ 0) ∧ VARefi.monthlyPayment (-5) 7 12 = 0 ∧
      Afford.monthlyPayment (-5) 7 12 = 0 ∧ ((-3 : ℤ) ≤ 0) ∧
      Refi.pmt 4 7 (-3) = 0 ∧ Refi.pmt 0 7 12 = 0 :=
  ⟨Or.inl (by norm_num),
    (payment_zero_guards (-5) 7 12).1 (Or.inl (by norm_num)),
    (payment_zero_guards (-5) 7 12).2.1 (Or.inl (by norm_num)),
    by norm_num,
    (payment_zero_guards 4 7 (-3)).2.2.1 (by norm_num),
    (payment_zero_guards 0 7 12).2.2.2⟩

/-- C7 counterexample: the refinance calculator's `remainingBalance` is
not always ≥ 0 — at original principal = −100 with monthsPaid = 0 it
returns the untouched principal −100 < 0. -/
theorem remainingBalance_negative_counterexample :
    Refi.remainingBalance (-100) 5 360 0 < 0 := by
  norm_num [Refi.remainingBalance]

/-- C7 amended: `balanceAfterMonths` returns a value ≥ 0 for every
input (every non-guard branch is clamped by `max 0 _`), including zero
and negative ones; `remainingBalance` returns a value ≥ 0 for every
input with a nonnegative original principal — it needs the principal
hypothesis because its `monthsPaid <= 0` branch returns the raw
principal unclamped. -/
theorem projected_balance_nonneg (principal rate : ℚ) (tm k : ℤ) :
    (0 ≤ principal → 0 ≤ Refi.remainingBalance principal rate tm k) ∧
      0 ≤ VARefi.balanceAfterMonths principal rate tm k := by
  constructor
  · intro hp
    simp only [Refi.remainingBalance]
    repeat' split
    all_goals first
      | exact le_rfl
      | exact hp
      | exact le_max_left 0 _
  · simp only [VARefi.balanceAfterMonths]
    repeat' split
    all_goals first
      | exact le_rfl
      | exact le_max_left 0 _

/-- Witness for C7's amended claim: the `remainingBalance` half at
principal = 100 (discharging its nonnegativity hypothesis), the
unconditional `balanceAfterMonths` half at principal = −100. -/
theorem projected_balance_nonneg_witness :
    (0 : ℚ) ≤ 100 ∧ 0 ≤ Refi.remainingBalance 100 5 360 0 ∧
      0 ≤ VARefi.balanceAfterMonths (-100) 5 360 0 :=
  ⟨by norm_num, (projected_balance_nonneg 100 5 360 0).1 (by norm_num),
    (projected_balance_nonneg (-100) 5 360 0).2⟩

/-- The purchase and VA copies of the baseline month loop agree on
every state. -/
theorem baselineLoop_eq_va (r payment : ℚ) :
    ∀ (fuel : ℕ) (bal : ℚ) (months : ℕ) (ip : ℚ),
      Purchase.baselineLoop r payment fuel bal months ip =
        VA.baselineLoop r payment fuel bal months ip := by
  intro fuel
  induction fuel with
  | zero =>
    intro bal months ip
    rfl
  | succ n ih =>
    intro bal months ip
    simp only [Purchase.baselineLoop, VA.baselineLoop]
    by_cases h : 0 < bal
    · rw [if_pos h, if_pos h]
      exact ih _ _ _
    · rw [if_neg h, if_neg h]

/-- The purchase and VA copies of the lump-sum cadence test agree. -/
theorem lumpDue_eq_va (lumpFreq : LumpFreq) (lumpSum : ℚ) (months : ℕ) :
    Purchase.lumpDue lumpFreq lumpSum months = VA.lumpDue lumpFreq lumpSum months :=
  rfl

/-- The purchase and VA copies of the with-extras month loop agree on
every state. -/
theorem extrasLoop_eq_va (r payment extraMonthly freqFactor lumpSum : ℚ)
    (lumpFreq : LumpFreq) :
    ∀ (fuel : ℕ) (bal : ℚ) (months : ℕ) (ip : ℚ),
      Purchase.extrasLoop r payment extraMonthly freqFactor lumpSum lumpFreq
          fuel bal months ip =
        VA.extrasLoop r payment extraMonthly freqFactor lumpSum lumpFreq
          fuel bal months ip := by
  intro fuel
  induction fuel with
  | zero =>
    intro bal months ip
    rfl
  | succ n ih =>
    intro bal months ip
    simp only [Purchase.extrasLoop, VA.extrasLoop, lumpDue_eq_va]
    by_cases h : 0 < bal
    · rw [if_pos h, if_pos h]
      exact ih _ _ _
    · rw [if_neg h, if_neg h]

/-- C10: the duplicated amortization implementations are extensionally
equal — the purchase calculator's `amortizeBaseline` and
`amortizeWithExtras` return the same result as the VA calculator's
copies on every input. -/
theorem purchase_va_duplicates_agree
    (principal r payment extraMonthly freqFactor lumpSum : ℚ)
    (lumpFreq : LumpFreq) :
    Purchase.amortizeBaseline principal r payment =
        VA.amortizeBaseline principal r payment ∧
      Purchase.amortizeWithExtras principal r payment extraMonthly freqFactor
          lumpSum lumpFreq =
        VA.amortizeWithExtras principal r payment extraMonthly freqFactor
          lumpSum lumpFreq := by
  constructor
  · simp only [Purchase.amortizeBaseline, VA.amortizeBaseline, baselineLoop_eq_va]
  · simp only [Purchase.amortizeWithExtras, VA.amortizeWithExtras, extrasLoop_eq_va]
